import Mathlib

/-!
Verification of the record decoding and normalization pipeline of
OceanDataTools/openrvdas_sikuliaq.

Shallow embedding notes:
* Python numeric values are modelled exactly: `int` by `Int`, `float` by
  the canonical exact-fraction type `PyRat` below (the claims under study
  are structural and do not depend on IEEE-754 rounding).  The binary
  decoder transports IEEE doubles/floats bit-exactly without doing
  arithmetic on them, so those payload values are modelled by their raw
  big-endian bit patterns (`f64bits` / `f32bits`), which is what
  "bit-for-bit" reconstruction is about.
* Strings are ASCII in this model: the character classes `\w`, `\s`,
  `str.isdigit` and `int`/`float` literal syntax are modelled on their ASCII
  fragments (the wire formats at hand are ASCII).
* Wall-clock time (`time.time()`) is passed in explicitly as a parameter
  `now : PyRat`.
* A Python function that can raise an uncaught exception is modelled with
  `Except Unit`; one that catches everything and degrades is total.
-/

/-! ## Exact rationals in canonical form

Python `float` arithmetic is modelled exactly (the claims under study are
structural, not about IEEE-754 rounding).  Instead of Mathlib's rational
type (whose operations the kernel cannot reduce, blocking `decide`/`rfl` on
closed pipeline runs) we use a canonical-form fraction type with a
fuel-driven Euclidean gcd: reduced, positive denominator, so value equality
is structural equality. -/

/-- Euclidean gcd with explicit fuel (`b % a < a`, so `a + 1` steps always
suffice); kernel-computable. -/
def natGcdF : Nat → Nat → Nat → Nat
  | 0, _, b => b
  | f + 1, a, b => if a = 0 then b else natGcdF f (b % a) a

/-- Greatest common divisor. -/
def natGcd (a b : Nat) : Nat := natGcdF (a + 1) a b

/-- An exact rational number in canonical form: reduced fraction, positive
denominator, sign carried by the numerator. -/
structure PyRat where
  num : Int
  den : Nat
  deriving DecidableEq

/-- Normalize `n / d` (for `d > 0`) to canonical form. -/
def PyRat.norm (n : Int) (d : Nat) : PyRat :=
  if d = 0 then ⟨0, 1⟩
  else
    let g := natGcd n.natAbs d
    ⟨n / (g : Int), d / g⟩

/-- Exact addition. -/
def PyRat.add (x y : PyRat) : PyRat :=
  PyRat.norm (x.num * (y.den : Int) + y.num * (x.den : Int)) (x.den * y.den)

/-- Exact negation. -/
def PyRat.neg (x : PyRat) : PyRat := ⟨-x.num, x.den⟩

/-- Exact multiplication. -/
def PyRat.mul (x y : PyRat) : PyRat :=
  PyRat.norm (x.num * y.num) (x.den * y.den)

/-- Exact division (division by zero never occurs in the modelled code; it
is mapped to zero to stay total). -/
def PyRat.div (x y : PyRat) : PyRat :=
  if y.num = 0 then ⟨0, 1⟩
  else
    let sgn : Int := if y.num < 0 then -1 else 1
    PyRat.norm (x.num * sgn * (y.den : Int)) (x.den * y.num.natAbs)

instance : Add PyRat := ⟨PyRat.add⟩
instance : Neg PyRat := ⟨PyRat.neg⟩
instance : Mul PyRat := ⟨PyRat.mul⟩
instance : Div PyRat := ⟨PyRat.div⟩

instance : Sub PyRat := ⟨fun x y => x.add y.neg⟩

instance (n : Nat) : OfNat PyRat n := ⟨⟨n, 1⟩⟩

instance : NatCast PyRat := ⟨fun n => ⟨n, 1⟩⟩

instance : IntCast PyRat := ⟨fun n => ⟨n, 1⟩⟩

/-- `math.floor` on an exact rational (`Int.fdiv` is floor division). -/
def PyRat.floorI (x : PyRat) : Int := Int.fdiv x.num (x.den : Int)

/-- Ten to an integer power, in canonical form. -/
def PyRat.pow10 : Int → PyRat
  | .ofNat k => ⟨((10 : Nat) ^ k : Nat), 1⟩
  | .negSucc k => ⟨1, (10 : Nat) ^ (k + 1)⟩

/-- Model of a Python value as it occurs in the pipeline's field maps:
`None`, `str`, `int`, `float`, `bool`, or an IEEE double/single transported
bit-exactly by the binary decoder. -/
inductive PyVal where
  | pnone
  | str (s : String)
  | int (n : Int)
  | float (q : PyRat)
  | bool (b : Bool)
  | f64bits (bits : Nat)
  | f32bits (bits : Nat)
  deriving DecidableEq

/-- Model of openrvdas `DASRecord` as consumed/produced by this repository:
`data_id`, a numeric `timestamp`, an optional `message_type`, and an ordered
`fields` map (Python dicts preserve insertion order). -/
structure DASRecord where
  data_id : Option String
  timestamp : PyRat
  message_type : Option String
  fields : List (String × PyVal)
  deriving DecidableEq

instance {ε α : Type} [DecidableEq ε] [DecidableEq α] :
    DecidableEq (Except ε α) := fun x y =>
  match x, y with
  | .ok a, .ok b =>
    if h : a = b then isTrue (by rw [h])
    else isFalse (fun hh => by cases hh; exact h rfl)
  | .error a, .error b =>
    if h : a = b then isTrue (by rw [h])
    else isFalse (fun hh => by cases hh; exact h rfl)
  | .ok _, .error _ => isFalse (fun hh => by cases hh)
  | .error _, .ok _ => isFalse (fun hh => by cases hh)

/-! ## Byte-level utilities (big-endian, `struct` format characters) -/

/-- Value of a big-endian byte list. -/
def beNat (bs : List Nat) : Nat := bs.foldl (fun a b => 256 * a + b) 0

/-- Big-endian encoding of `n` on `w` bytes (the `struct.pack` layout of an
unsigned `w`-byte integer, or of the raw bit pattern of a float/double). -/
def beBytes : Nat → Nat → List Nat
  | 0, _ => []
  | w + 1, n => beBytes w (n / 256) ++ [n % 256]

/-- Big-endian field extraction: `len` bytes starting at offset `off`
(the model of `struct.unpack`'s reading of one field from a buffer). -/
def sliceBE (b : List Nat) (off len : Nat) : Nat := beNat ((b.drop off).take len)

/-! ## ParseKongsbergKMBTransform
(src/logger/transforms/parse_kongsberg_kmb_transform.py)

Struct format `>4sHHIIIddffffff`, total 60 bytes. -/

/-- The 4-byte magic tag `#KMB` (ASCII 35, 75, 77, 66). -/
def KMB_MAGIC : List Nat := [35, 75, 77, 66]

/-- `struct.calcsize('>4sHHIIIddffffff') = 60`. -/
def kmb_struct_size : Nat := 60

/-- Model of `ParseKongsbergKMBTransform.transform` for a `bytes` input
(`record : List Nat`, one entry per byte): length check, unpack of the first
60 bytes, magic-tag check, then assembly of the `DASRecord` with timestamp
`seconds + nanoseconds / 1e9` and the nine payload fields.  Doubles and
floats are carried as their big-endian bit patterns. -/
def kmbTransformBytes (data_id : String) (record : List Nat) : Option DASRecord :=
  if record.length < kmb_struct_size then none
  else
    let r := record.take kmb_struct_size
    if r.take 4 ≠ KMB_MAGIC then none
    else
      let utc_sec := sliceBE r 8 4
      let utc_nano := sliceBE r 12 4
      let status := sliceBE r 16 4
      some
        { data_id := some data_id
          message_type := some "kmb"
          timestamp := (utc_sec : PyRat) + (utc_nano : PyRat) / 1000000000
          fields :=
            [("status", .int status),
             ("latitude", .f64bits (sliceBE r 20 8)),
             ("longitude", .f64bits (sliceBE r 28 8)),
             ("ellipsoid_height_m", .f32bits (sliceBE r 36 4)),
             ("roll_deg", .f32bits (sliceBE r 40 4)),
             ("pitch_deg", .f32bits (sliceBE r 44 4)),
             ("heading_deg", .f32bits (sliceBE r 48 4)),
             ("heave_m", .f32bits (sliceBE r 52 4)),
             ("roll_rate_deg_s", .f32bits (sliceBE r 56 4))] }

/-- Value of one hexadecimal digit, as accepted by `bytes.fromhex`. -/
def hexDigit? (c : Char) : Option Nat :=
  if '0' ≤ c ∧ c ≤ '9' then some (c.toNat - '0'.toNat)
  else if 'a' ≤ c ∧ c ≤ 'f' then some (c.toNat - 'a'.toNat + 10)
  else if 'A' ≤ c ∧ c ≤ 'F' then some (c.toNat - 'A'.toNat + 10)
  else none

/-- Pairs of adjacent hex digits to bytes, with ASCII spaces allowed
between pairs; an odd digit, a space inside a pair, or a non-hex character
is a `ValueError` (`none`). -/
def hexPairs? : List Char → Option (List Nat)
  | [] => some []
  | c :: rest =>
    if c = ' ' then hexPairs? rest
    else
      match rest with
      | [] => none
      | c2 :: rest2 => do
        let h1 ← hexDigit? c
        let h2 ← hexDigit? c2
        let tl ← hexPairs? rest2
        pure ((16 * h1 + h2) :: tl)

/-- Model of `bytes.fromhex`. -/
def bytesFromHex? (s : String) : Option (List Nat) :=
  hexPairs? s.toList

/-- Input to the binary transform: a byte buffer or a (possibly hex) string.
`None` and lists are handled by the openrvdas `Transform` base class and are
outside the decoder proper. -/
inductive KmbInput where
  | bytes (b : List Nat)
  | str (s : String)

/-- Model of `ParseKongsbergKMBTransform.transform`: a non-`bytes` string
input is first converted with `bytes.fromhex`, a conversion failure yields
`None`; then the byte-level decode runs. -/
def kmbTransform (data_id : String) (record : KmbInput) : Option DASRecord :=
  match record with
  | .bytes b => kmbTransformBytes data_id b
  | .str s =>
    match bytesFromHex? s with
    | some b => kmbTransformBytes data_id b
    | none => none

/-- The packed field values of a synthetic `#KMB` datagram, as produced by
`generate_data` in src/utils/generate_simulated_kmb_data.py
(`struct.pack('>4sHHIIIddffffff', b'#KMB', ...)`), floats again as bit
patterns. -/
structure KmbValues where
  dgm_len : Nat
  version : Nat
  utc_sec : Nat
  utc_nano : Nat
  status : Nat
  lat : Nat
  lon : Nat
  ellipsoid_height : Nat
  roll : Nat
  pitch : Nat
  heading : Nat
  heave : Nat
  roll_rate : Nat

/-- Model of the generator's `struct.pack('>4sHHIIIddffffff', b'#KMB', ...)`. -/
def kmbPack (v : KmbValues) : List Nat :=
  KMB_MAGIC ++ beBytes 2 v.dgm_len ++ beBytes 2 v.version ++
    beBytes 4 v.utc_sec ++ beBytes 4 v.utc_nano ++ beBytes 4 v.status ++
    beBytes 8 v.lat ++ beBytes 8 v.lon ++ beBytes 4 v.ellipsoid_height ++
    beBytes 4 v.roll ++ beBytes 4 v.pitch ++ beBytes 4 v.heading ++
    beBytes 4 v.heave ++ beBytes 4 v.roll_rate

/-- All thirteen packed values fit the widths of their format characters. -/
def KmbValues.inRange (v : KmbValues) : Prop :=
  v.dgm_len < 256 ^ 2 ∧ v.version < 256 ^ 2 ∧ v.utc_sec < 256 ^ 4 ∧
    v.utc_nano < 256 ^ 4 ∧ v.status < 256 ^ 4 ∧ v.lat < 256 ^ 8 ∧
    v.lon < 256 ^ 8 ∧ v.ellipsoid_height < 256 ^ 4 ∧ v.roll < 256 ^ 4 ∧
    v.pitch < 256 ^ 4 ∧ v.heading < 256 ^ 4 ∧ v.heave < 256 ^ 4 ∧
    v.roll_rate < 256 ^ 4

/-! ## Python string and number primitives (ASCII fragment) -/

/-- ASCII decimal digit. -/
def isAsciiDigit (c : Char) : Bool := '0' ≤ c ∧ c ≤ '9'

/-- The six ASCII characters matched by Python's `\s` / stripped by
`str.rstrip()`: space, tab, newline, carriage return, vertical tab, form
feed. -/
def isPyWS (c : Char) : Bool :=
  c = ' ' ∨ c = '\t' ∨ c = '\n' ∨ c = '\r' ∨ c.toNat = 11 ∨ c.toNat = 12

/-- ASCII word character, the `\w` class: letters, digits, underscore. -/
def isWordChar (c : Char) : Bool :=
  isAsciiDigit c ∨ ('a' ≤ c ∧ c ≤ 'z') ∨ ('A' ≤ c ∧ c ≤ 'Z') ∨ c = '_'

/-- Decimal value of a digit list. -/
def digitsVal (ds : List Char) : Nat :=
  ds.foldl (fun a c => 10 * a + (c.toNat - '0'.toNat)) 0

/-- Strip Python whitespace from both ends (as `int()` / `float()` do before
parsing a literal). -/
def stripWS (cs : List Char) : List Char :=
  ((cs.dropWhile isPyWS).reverse.dropWhile isPyWS).reverse

/-- One optional leading sign; returns the sign and the remaining input. -/
def parseSign : List Char → Int × List Char
  | '-' :: rest => (-1, rest)
  | '+' :: rest => (1, rest)
  | cs => (1, cs)

/-- Nonempty all-digit run, or failure. -/
def parseDigits : List Char → Option Nat
  | [] => none
  | cs => if cs.all isAsciiDigit then some (digitsVal cs) else none

/-- Model of `str.isdigit()` on the ASCII fragment: nonempty and all
decimal digits. -/
def pyIsdigit (cs : List Char) : Bool := !cs.isEmpty && cs.all isAsciiDigit

/-- Model of Python `int(s)` on a decimal string literal: surrounding
whitespace, one optional sign, then a nonempty digit run; anything else
raises `ValueError` (`none`).  (Underscore digit separators and non-ASCII
digits are outside this model.) -/
def pyIntParse? (s : String) : Option Int :=
  let (sgn, cs) := parseSign (stripWS s.toList)
  (parseDigits cs).map (fun n => sgn * n)

/-- Mantissa of a float literal: `digits`, `digits.digits`, `digits.` or
`.digits`. -/
def parseMantissa (cs : List Char) : Option PyRat :=
  let (ip, rest) := cs.span (fun c => c ≠ '.')
  match rest with
  | [] => (parseDigits ip).map (fun n => (n : PyRat))
  | _ :: fp =>
    if ip.all isAsciiDigit ∧ fp.all isAsciiDigit ∧ (ip ≠ [] ∨ fp ≠ []) then
      some ((digitsVal ip : PyRat) +
        (digitsVal fp : PyRat) / PyRat.pow10 (fp.length : Int))
    else none

/-- Model of Python `float(s)` on a finite decimal literal: surrounding
whitespace, optional sign, mantissa, optional `e`/`E` exponent with its own
optional sign; the value is exact.  Anything else — including the
`inf`/`nan` spellings, which are outside this model — raises `ValueError`
(`none`). -/
def pyFloatParse? (s : String) : Option PyRat :=
  let (sgn, cs) := parseSign (stripWS s.toList)
  let (mant, erest) := cs.span (fun c => c ≠ 'e' ∧ c ≠ 'E')
  match erest with
  | [] => (parseMantissa mant).map (fun m => (sgn : PyRat) * m)
  | _ :: ex =>
    let (esgn, ed) := parseSign ex
    match parseMantissa mant, parseDigits ed with
    | some m, some e =>
      some ((sgn : PyRat) * m * PyRat.pow10 (esgn * (e : Int)))
    | _, _ => none

/-! ## Ordered string-keyed dict operations (Python dict semantics) -/

/-- Python `d.get(k)` lookup, `none` for an absent key (first occurrence;
keys are unique in a Python dict). -/
def dictGet {α : Type} : List (String × α) → String → Option α
  | [], _ => none
  | kv :: rest, k => if kv.1 = k then some kv.2 else dictGet rest k

/-- Python key-presence test `k in d`. -/
def dictHas {α : Type} : List (String × α) → String → Bool
  | [], _ => false
  | kv :: rest, k => if kv.1 = k then true else dictHas rest k

/-- Python `d[k] = v`: overwrite in place if the key is present (insertion
order preserved), else append at the end. -/
def dictSet {α : Type} (l : List (String × α)) (k : String) (v : α) :
    List (String × α) :=
  if dictHas l k then l.map (fun kv => if kv.1 = k then (k, v) else kv)
  else l ++ [(k, v)]

/-- Python `del d[k]`. -/
def dictDel {α : Type} (l : List (String × α)) (k : String) :
    List (String × α) :=
  l.filter (fun kv => kv.1 ≠ k)

/-! ## NormalizeCoriolixTransform
(src/logger/transforms/normalize_coriolix_transform.py) -/

/-- Model of `NormalizeCoriolixTransform._try_convert_number`.  A string
whose `lstrip('-')` is all digits goes to `int(value)` — which RAISES an
uncaught `ValueError` (`Except.error`) when more than one leading minus was
stripped; otherwise `float(value)` is attempted and a `ValueError` there is
caught, keeping the original string.  Non-strings pass through unchanged. -/
def try_convert_number (value : PyVal) : Except Unit PyVal :=
  match value with
  | .str s =>
    if pyIsdigit (s.toList.dropWhile (fun c => c = '-')) then
      match pyIntParse? s with
      | some n => .ok (.int n)
      | none => .error ()
    else
      match pyFloatParse? s with
      | some q => .ok (.float q)
      | none => .ok (.str s)
  | v => .ok v

/-- Model of Python `float(x)` applied to a field value: numeric types
convert, strings parse as literals, everything else (`None`, dicts) raises
`TypeError`; `none` stands for a raised `ValueError`/`TypeError`.  (The
`f64bits`/`f32bits` bit-pattern values belong to the binary pipeline and do
not reach the normalizer.) -/
def pyFloatOf? (value : PyVal) : Option PyRat :=
  match value with
  | .str s => pyFloatParse? s
  | .int n => some (n : PyRat)
  | .float q => some q
  | .bool b => some (if b then 1 else 0)
  | _ => none

/-- Model of `str(direction).upper() in ['S', 'W']`.  Only a string value
can pass: `str(None) = "None"`, and the `str()` of an int, float, bool or
dict always contains characters other than a single `S`/`W`. -/
def str_upper_in_SW (direction : PyVal) : Bool :=
  match direction with
  | .str s => s.toList.map Char.toUpper = ['S'] ∨ s.toList.map Char.toUpper = ['W']
  | _ => false

/-- Model of `NormalizeCoriolixTransform._nmea_to_decimal`:
`float(value)`, `degrees = math.floor(v / 100)`, `minutes = v % 100`
(Python float `%` is `v - 100 * floor(v / 100)`), result
`degrees + minutes / 60`, negated when `str(direction).upper()` is `S` or
`W`; any `ValueError`/`TypeError` is caught and yields `None`. -/
def nmea_to_decimal (value direction : PyVal) : Option PyRat :=
  match pyFloatOf? value with
  | none => none
  | some val_float =>
    let degrees : Int := (val_float / 100).floorI
    let minutes : PyRat := val_float - 100 * ((val_float / 100).floorI : PyRat)
    let decimal_degrees : PyRat := (degrees : PyRat) + minutes / 60
    some (if str_upper_in_SW direction then -decimal_degrees else decimal_degrees)

/-- The decimal-degree value `floor(v / 100) + (v mod 100) / 60` (with
Python's floor-mod), the formula shared by `_nmea_to_decimal` and the
specification. -/
def nmeaDecimalDegrees (q : PyRat) : PyRat :=
  ((q / 100).floorI : PyRat) + (q - 100 * ((q / 100).floorI : PyRat)) / 60

/-- Stage 2 of `NormalizeCoriolixTransform.transform`: number conversion of
every field not in `skip_fields`, in insertion order; an uncaught exception
from `_try_convert_number` aborts the whole transform. -/
def normalizeNumbers (skip_fields : List String) :
    List (String × PyVal) → Except Unit (List (String × PyVal))
  | [] => .ok []
  | (k, v) :: rest => do
    let v' ← if k ∈ skip_fields then pure v else try_convert_number v
    let rest' ← normalizeNumbers skip_fields rest
    pure ((k, v') :: rest')

/-- One iteration of stage 3 of `NormalizeCoriolixTransform.transform` for a
configured `(final_name, (raw_val_key, raw_dir_key))` entry: if the value
key is present, derive the decimal-degree value from
`new_fields.get(raw_val_key)` and `new_fields.get(raw_dir_key)` and store it
under `final_name` when the derivation returned a value. -/
def applyLatLonPair (fields : List (String × PyVal))
    (pair : String × String × String) : List (String × PyVal) :=
  let final_name := pair.1
  let raw_val_key := pair.2.1
  let raw_dir_key := pair.2.2
  if dictHas fields raw_val_key then
    let raw_val := (dictGet fields raw_val_key).getD .pnone
    let raw_dir := (dictGet fields raw_dir_key).getD .pnone
    match nmea_to_decimal raw_val raw_dir with
    | some decimal_val => dictSet fields final_name (.float decimal_val)
    | none => fields
  else fields

/-- Stage 3 of `NormalizeCoriolixTransform.transform`: the lat/lon map is
walked in insertion order. -/
def normalizeLatLon (lat_lon_map : List (String × String × String))
    (fields : List (String × PyVal)) : List (String × PyVal) :=
  lat_lon_map.foldl applyLatLonPair fields

/-- Model of `NormalizeCoriolixTransform.transform` on a `DASRecord` input
(dict and JSON inputs are first converted to a `DASRecord` by lines 72-90 of
the source and then take the same path): empty fields pass through; then
number conversion and lat/lon derivation on a copy of the fields.
`Except.error` is an exception escaping `transform`. -/
def normalize_transform (skip_fields : List String)
    (lat_lon_map : List (String × String × String)) (record : DASRecord) :
    Except Unit DASRecord :=
  if record.fields.isEmpty then .ok record
  else do
    let new_fields ← normalizeNumbers skip_fields record.fields
    let new_fields := normalizeLatLon lat_lon_map new_fields
    .ok { record with fields := new_fields }

/-! ## RegexParser (src/coriolix/logger/utils/regex_parser.py) -/

/-- A groupdict as returned by `re.Match.groupdict()`: named groups in
declaration order, `none` for a group that did not participate. -/
abbrev Groupdict := List (String × Option String)

/-- A compiled field pattern, abstracted to its observable behaviour in the
parser: `pattern.match(field_string)` either fails or yields a groupdict. -/
abbrev FieldPattern := String → Option Groupdict

/-- The `field_patterns` configuration: a list of patterns, or an ordered
mapping of `message_type` to pattern. -/
inductive FieldPatterns where
  | list (ps : List FieldPattern)
  | dict (ps : List (String × FieldPattern))

/-- Python truthiness of the `field_patterns` attribute at
`if self.field_patterns:` — an empty list or dict is falsy. -/
def fieldPatternsTruthy : FieldPatterns → Bool
  | .list ps => !ps.isEmpty
  | .dict ps => !ps.isEmpty

/-- The `iterate_patterns` shortcut of `parse_record`: a list yields
`(None, pattern)` pairs, a dict yields `(key, pattern)` pairs, in declared
order. -/
def iterate_patterns : FieldPatterns → List (Option String × FieldPattern)
  | .list ps => ps.map (fun p => (none, p))
  | .dict ps => ps.map (fun kv => (some kv.1, kv.2))

/-- The matching loop of `parse_record` (lines 162-177): try each pattern in
order against `field_string`; on the first match take its groupdict as
`fields` and stop.  The loop variable `message_type` is rebound at every
iteration, so when NO pattern matches the returned `message_type` is the one
of the last pattern tried (Python for-loop variable leakage), which the
third argument threads through. -/
def matchLoop : List (Option String × FieldPattern) → String → Option String →
    Option String × Groupdict
  | [], _, message_type => (message_type, [])
  | (mt, pattern) :: rest, field_string, _ =>
    match pattern field_string with
    | some gd => (mt, gd)
    | none => matchLoop rest field_string mt

/-- Configuration of a `RegexParser` (record_format is carried as the
compiled match function; `DEFAULT_RECORD_FORMAT` is modelled below). -/
structure RegexParser where
  record_format : String → Option Groupdict
  field_patterns : Option FieldPatterns
  default_data_id : Option String
  return_das_record : Bool
  return_json : Bool

/-- The characters of the `timestamp` group's class `[0-9TZ:\-\.]`. -/
def isTsChar (c : Char) : Bool :=
  isAsciiDigit c ∨ c = 'T' ∨ c = 'Z' ∨ c = ':' ∨ c = '-' ∨ c = '.'

/-- Model of `re.match` of `DEFAULT_RECORD_FORMAT`
`^(?:(?P<data_id>\w+)\s+(?P<timestamp>[0-9TZ:\-\.]*)\s+)?(?P<field_string>(.|\r|\n)*)`
on a string.  The trailing group matches anything, so the match always
succeeds; backtracking semantics of the optional prefix: `data_id` can only
be the maximal `\w+` run (a shorter one is followed by a word character,
failing `\s+`); after the maximal whitespace run, either a nonempty
timestamp-class run followed by whitespace parses as the timestamp, or — if
the whitespace run has length at least two — the timestamp matches empty
inside the whitespace; otherwise the optional group does not participate. -/
def default_record_format_match (record : String) : Option Groupdict :=
  let cs := record.toList
  let w := cs.takeWhile isWordChar
  let restW := cs.drop w.length
  let a := restW.takeWhile isPyWS
  let restA := restW.drop a.length
  let t := restA.takeWhile isTsChar
  let restT := restA.drop t.length
  let b := restT.takeWhile isPyWS
  some (if w ≠ [] ∧ a ≠ [] then
    if t ≠ [] ∧ b ≠ [] then
      [("data_id", some (String.mk w)), ("timestamp", some (String.mk t)),
       ("field_string", some (String.mk (restT.drop b.length)))]
    else if 2 ≤ a.length then
      [("data_id", some (String.mk w)), ("timestamp", some ""),
       ("field_string", some (String.mk restA))]
    else
      [("data_id", none), ("timestamp", none), ("field_string", some record)]
  else
    [("data_id", none), ("timestamp", none), ("field_string", some record)])

/-- Model of `str.rstrip()` (ASCII whitespace). -/
def pyRstrip (s : String) : String :=
  String.mk (s.toList.reverse.dropWhile isPyWS).reverse

/-- Days from 1970-01-01 of a valid civil date (`y ≥ 1`), by the standard
era/day-of-era computation. -/
def daysFromCivil (y m d : Nat) : Int :=
  let y' : Nat := if m ≤ 2 then y - 1 else y
  let era : Nat := y' / 400
  let yoe : Nat := y' % 400
  let mp : Nat := (m + 9) % 12
  let doy : Nat := (153 * mp + 2) / 5 + d - 1
  let doe : Nat := yoe * 365 + yoe / 4 - yoe / 100 + doy
  (era * 146097 + doe : Int) - 719468

/-- Leap-year rule used by `datetime`. -/
def isLeapYear (y : Nat) : Bool := y % 4 = 0 ∧ (y % 100 ≠ 0 ∨ y % 400 = 0)

/-- Days in a month as validated by the `datetime` constructor. -/
def daysInMonth (y m : Nat) : Nat :=
  if m = 2 then (if isLeapYear y then 29 else 28)
  else if m = 4 ∨ m = 6 ∨ m = 9 ∨ m = 11 then 30
  else 31

/-- One expected literal character. -/
def expectChar (c : Char) : List Char → Option (List Char)
  | x :: rest => if x = c then some rest else none
  | [] => none

/-- A digit run of between `lo` and `hi` digits; returns its value, its
length, and the rest of the input. -/
def digitsRun (lo hi : Nat) (cs : List Char) : Option (Nat × Nat × List Char) :=
  let ds := cs.takeWhile isAsciiDigit
  if lo ≤ ds.length ∧ ds.length ≤ hi then
    some (digitsVal ds, ds.length, cs.drop ds.length)
  else none

/-- Date part `%Y-%m-%dT` of the fixed `strptime` format: 4-digit year,
1-2 digit month and day. -/
def parseDatePart (cs : List Char) : Option (Nat × Nat × Nat × List Char) := do
  let (y, _, cs) ← digitsRun 4 4 cs
  let cs ← expectChar '-' cs
  let (mo, _, cs) ← digitsRun 1 2 cs
  let cs ← expectChar '-' cs
  let (d, _, cs) ← digitsRun 1 2 cs
  let cs ← expectChar 'T' cs
  pure (y, mo, d, cs)

/-- Time part `%H:%M:%S.` of the fixed `strptime` format. -/
def parseTimePart (cs : List Char) : Option (Nat × Nat × Nat × List Char) := do
  let (h, _, cs) ← digitsRun 1 2 cs
  let cs ← expectChar ':' cs
  let (mi, _, cs) ← digitsRun 1 2 cs
  let cs ← expectChar ':' cs
  let (s, _, cs) ← digitsRun 1 2 cs
  let cs ← expectChar '.' cs
  pure (h, mi, s, cs)

/-- Model of `RegexParser.convert_timestamp`: `strptime` with the fixed
format `%Y-%m-%dT%H:%M:%S.%fZ` (4-digit year, 1-2 digit month/day/hour/
minute/second with `datetime`'s range checks, 1-6 fractional digits),
converted to Unix epoch seconds.  The naive `datetime.timestamp()` is
modelled as UTC; a format or range failure is `ValueError`, caught to
`None`. -/
def convert_timestamp (datetime_text : String) : Option PyRat := do
  let (y, mo, d, cs) ← parseDatePart datetime_text.toList
  let (h, mi, s, cs) ← parseTimePart cs
  let (f, fl, cs) ← digitsRun 1 6 cs
  let cs ← expectChar 'Z' cs
  if cs = [] ∧ 1 ≤ y ∧ 1 ≤ mo ∧ mo ≤ 12 ∧ 1 ≤ d ∧ d ≤ daysInMonth y mo ∧
      h ≤ 23 ∧ mi ≤ 59 ∧ s ≤ 59 then
    some ((daysFromCivil y mo d : PyRat) * 86400 + (h : PyRat) * 3600 +
      (mi : PyRat) * 60 + (s : PyRat) + (f : PyRat) / PyRat.pow10 (fl : Int))
  else none

/-- A value of the `parsed_record` dict built by `parse_record`: a group's
text or `None` from the groupdict, the converted numeric timestamp, or the
nested `fields` dict (whose values are again group text or `None`). -/
inductive RecVal where
  | pnone
  | str (s : String)
  | float (q : PyRat)
  | dict (entries : Groupdict)
  deriving DecidableEq

/-- The `parsed_record` dict as first built from the framing groupdict:
non-participating groups are `None`. -/
def groupdictToRec (gd : Groupdict) : List (String × RecVal) :=
  gd.map (fun kv => (kv.1, match kv.2 with | some s => .str s | none => .pnone))

/-- Field values handed to a `DASRecord` (`fields=...`): group text or
`None`. -/
def groupdictToPy (gd : Groupdict) : List (String × PyVal) :=
  gd.map (fun kv => (kv.1, match kv.2 with | some s => .str s | none => .pnone))

/-- What `parse_record` returns: a Python dict, the dict that
`json.dumps` serializes in JSON mode, or a `DASRecord`. -/
inductive ParseOutput where
  | dict (d : List (String × RecVal))
  | json (d : List (String × RecVal))
  | das (r : DASRecord)
  deriving DecidableEq

/-- The dict finalization of `parse_record`'s dict/JSON output paths:
`parsed_record['data_id'] = data_id`, then `parsed_record['timestamp'] =
timestamp` only when the KEY `'timestamp'` is absent (a present key holding
`None` or unparsed text is left untouched). -/
def finalizeDict (pr : List (String × RecVal)) (data_id : String)
    (timestamp : PyRat) : List (String × RecVal) :=
  let pr := dictSet pr "data_id" (.str data_id)
  if dictHas pr "timestamp" then pr else dictSet pr "timestamp" (.float timestamp)

/-- Model of `RegexParser.parse_record` on a string input; `now` is
`time.time()`.  A falsy (empty) record, or a record the framing pattern does
not match (`.groupdict()` of `None` raises `AttributeError`, caught), yields
`None`.  Otherwise: `data_id` resolution (regex group, then truthy
`default_data_id`, then `'unknown'`); timestamp conversion with wall-clock
fallback (the converted value is written back into `parsed_record` only on
success); `field_string` extraction with `rstrip` and `del`; the pattern
matching loop; then assembly per output mode. -/
def parse_record (self : RegexParser) (record : String) (now : PyRat) :
    Option ParseOutput :=
  if record = "" then none
  else
    match self.record_format record with
    | none => none
    | some gd =>
      let pr0 : List (String × RecVal) := groupdictToRec gd
      let data_id : String :=
        match dictGet pr0 "data_id" with
        | some (.str d) => d
        | _ =>
          match self.default_data_id with
          | some dflt => if dflt = "" then "unknown" else dflt
          | none => "unknown"
      let timestamp_text : Option String :=
        match dictGet pr0 "timestamp" with
        | some (.str t) => some t
        | _ => none
      let converted : Option PyRat :=
        match timestamp_text with
        | some txt => convert_timestamp txt
        | none => none
      let pr1 : List (String × RecVal) :=
        match converted with
        | some t => dictSet pr0 "timestamp" (.float t)
        | none => pr0
      let timestamp : PyRat := converted.getD now
      let field_string_opt : Option String :=
        match dictGet pr1 "field_string" with
        | some (.str f) => some (pyRstrip f)
        | _ => none
      let pr2 : List (String × RecVal) :=
        match field_string_opt with
        | some _ => dictDel pr1 "field_string"
        | none => pr1
      let mtf : Option String × Groupdict :=
        match field_string_opt with
        | some fs =>
          if fs ≠ "" then
            match self.field_patterns with
            | some fps =>
              if fieldPatternsTruthy fps then
                matchLoop (iterate_patterns fps) fs none
              else (none, [])
            | none => (none, [])
          else (none, [])
        | none => (none, [])
      let message_type := mtf.1
      let fields := mtf.2
      let pr3 : List (String × RecVal) :=
        if fields.isEmpty then pr2
        else dictSet pr2 "fields" (.dict fields)
      if self.return_das_record then
        some (.das { data_id := some data_id, timestamp := timestamp,
                     message_type := message_type,
                     fields := groupdictToPy fields })
      else if self.return_json then
        some (.json (finalizeDict pr3 data_id timestamp))
      else
        some (.dict (finalizeDict pr3 data_id timestamp))

/-! ## Helper lemmas for the KMB layout -/

theorem beNat_append_single (bs : List Nat) (b : Nat) :
    beNat (bs ++ [b]) = 256 * beNat bs + b := by
  simp [beNat, List.foldl_append]

theorem beBytes_length (w n : Nat) : (beBytes w n).length = w := by
  induction w generalizing n with
  | zero => rfl
  | succ w ih => simp [beBytes, ih]

theorem beNat_beBytes (w n : Nat) (h : n < 256 ^ w) : beNat (beBytes w n) = n := by
  induction w generalizing n with
  | zero =>
    interval_cases n
    rfl
  | succ w ih =>
    have hdiv : n / 256 < 256 ^ w := by
      rw [Nat.div_lt_iff_lt_mul (by norm_num)]
      calc n < 256 ^ (w + 1) := h
        _ = 256 ^ w * 256 := by ring
    rw [beBytes, beNat_append_single, ih _ hdiv]
    exact Nat.div_add_mod n 256


theorem sliceBE_of_eq (b pre bs rest : List Nat) (off len : Nat)
    (h : b = pre ++ (bs ++ rest)) (hoff : off = pre.length)
    (hlen : len = bs.length) : sliceBE b off len = beNat bs := by
  subst h hoff hlen
  unfold sliceBE
  rw [List.drop_left, List.take_left]

theorem kmbPack_length (v : KmbValues) : (kmbPack v).length = 60 := by
  simp [kmbPack, KMB_MAGIC, beBytes_length]

theorem kmbPack_take_magic (v : KmbValues) : (kmbPack v).take 4 = KMB_MAGIC := by
  have h : kmbPack v = KMB_MAGIC ++
      (beBytes 2 v.dgm_len ++ beBytes 2 v.version ++ beBytes 4 v.utc_sec ++
        beBytes 4 v.utc_nano ++ beBytes 4 v.status ++ beBytes 8 v.lat ++
        beBytes 8 v.lon ++ beBytes 4 v.ellipsoid_height ++ beBytes 4 v.roll ++
        beBytes 4 v.pitch ++ beBytes 4 v.heading ++ beBytes 4 v.heave ++
        beBytes 4 v.roll_rate) := by
    simp [kmbPack, List.append_assoc]
  rw [h, show (4 : Nat) = KMB_MAGIC.length from rfl, List.take_left]

/-! ## Dict lemmas -/

theorem dictGet_eq_none_iff {α : Type} (l : List (String × α)) (k : String) :
    dictGet l k = none ↔ dictHas l k = false := by
  induction l with
  | nil => simp [dictGet, dictHas]
  | cons kv rest ih =>
    by_cases h : kv.1 = k
    · simp [dictGet, dictHas, h]
    · simpa [dictGet, dictHas, h] using ih

theorem dictHas_of_dictGet {α : Type} {l : List (String × α)} {k : String}
    {v : α} (h : dictGet l k = some v) : dictHas l k = true := by
  by_cases hh : dictHas l k = true
  · exact hh
  · rw [(dictGet_eq_none_iff l k).2 (by simpa using hh)] at h
    cases h

theorem dictGet_overwrite_ne {α : Type} (l : List (String × α))
    (k k' : String) (v : α) (h : k ≠ k') :
    dictGet (l.map fun kv => if kv.1 = k' then (k', v) else kv) k =
      dictGet l k := by
  induction l with
  | nil => rfl
  | cons kv rest ih =>
    by_cases hk : kv.1 = k'
    · simp [dictGet, hk, Ne.symm h, ih]
    · by_cases hk2 : kv.1 = k
      · simp [dictGet, hk, hk2, h]
      · simp [dictGet, hk, hk2, ih]

theorem dictGet_append_single_ne {α : Type} (l : List (String × α))
    (k k' : String) (v : α) (h : k ≠ k') :
    dictGet (l ++ [(k', v)]) k = dictGet l k := by
  induction l with
  | nil => simp [dictGet, Ne.symm h]
  | cons kv rest ih =>
    by_cases hk2 : kv.1 = k
    · simp [dictGet, hk2]
    · simp [dictGet, hk2, ih]

theorem dictGet_dictSet_ne {α : Type} (l : List (String × α)) (k k' : String)
    (v : α) (h : k ≠ k') : dictGet (dictSet l k' v) k = dictGet l k := by
  unfold dictSet
  by_cases hh : dictHas l k'
  · simpa [hh] using dictGet_overwrite_ne l k k' v h
  · simpa [hh] using dictGet_append_single_ne l k k' v h

/-! ## Lemmas about the lat/lon derivation step -/

theorem nmea_to_decimal_of_float {v : PyVal} {q : PyRat} (direction : PyVal)
    (hq : pyFloatOf? v = some q) :
    nmea_to_decimal v direction =
      some (if str_upper_in_SW direction then -nmeaDecimalDegrees q
        else nmeaDecimalDegrees q) := by
  unfold nmea_to_decimal nmeaDecimalDegrees
  rw [hq]

theorem applyLatLonPair_success (fields : List (String × PyVal))
    (final_name raw_val_key raw_dir_key : String) (v : PyVal) (q : PyRat)
    (hv : dictGet fields raw_val_key = some v) (hq : pyFloatOf? v = some q) :
    applyLatLonPair fields (final_name, raw_val_key, raw_dir_key) =
      dictSet fields final_name (.float
        (if str_upper_in_SW ((dictGet fields raw_dir_key).getD .pnone) then
          -nmeaDecimalDegrees q
        else nmeaDecimalDegrees q)) := by
  simp only [applyLatLonPair]
  rw [dictHas_of_dictGet hv]
  simp only [if_true, hv, Option.getD_some]
  rw [nmea_to_decimal_of_float _ hq]

theorem applyLatLonPair_skip_missing (fields : List (String × PyVal))
    (final_name raw_val_key raw_dir_key : String)
    (hv : dictGet fields raw_val_key = none) :
    applyLatLonPair fields (final_name, raw_val_key, raw_dir_key) = fields := by
  simp only [applyLatLonPair]
  rw [(dictGet_eq_none_iff fields raw_val_key).1 hv]
  simp

theorem applyLatLonPair_skip_unconvertible (fields : List (String × PyVal))
    (final_name raw_val_key raw_dir_key : String) (v : PyVal)
    (hv : dictGet fields raw_val_key = some v) (hq : pyFloatOf? v = none) :
    applyLatLonPair fields (final_name, raw_val_key, raw_dir_key) = fields := by
  simp only [applyLatLonPair]
  rw [dictHas_of_dictGet hv]
  simp only [if_true, hv, Option.getD_some]
  unfold nmea_to_decimal
  rw [hq]

theorem applyLatLonPair_preserves (fields : List (String × PyVal))
    (final_name raw_val_key raw_dir_key k : String) (hk : k ≠ final_name) :
    dictGet (applyLatLonPair fields (final_name, raw_val_key, raw_dir_key)) k =
      dictGet fields k := by
  simp only [applyLatLonPair]
  by_cases hhas : dictHas fields raw_val_key
  · simp only [hhas, if_true]
    cases nmea_to_decimal ((dictGet fields raw_val_key).getD .pnone)
        ((dictGet fields raw_dir_key).getD .pnone) with
    | none => rfl
    | some dd => exact dictGet_dictSet_ne fields k final_name _ hk
  · simp [hhas]

/-! ## Claim theorems: NormalizeCoriolixTransform -/

/-- C2 (code bug evidence).  The claim says `transform` never raises past
its boundary and that an uncoercible value is left as its original string;
values like `"abc"` and `"N/A"` indeed degrade gracefully and a failed
coordinate conversion is skipped (first conjunct), but the value `"--5"`
passes the `lstrip('-').isdigit()` guard and `int('--5')` raises an
uncaught `ValueError` out of `transform` (second conjunct). -/
theorem normalize_transform_double_minus_raises :
    normalize_transform [] [("latitude", "lat", "lat_dir")]
      ⟨some "s330", ⟨0, 1⟩, none, [("lat", .str "abc"), ("note", .str "N/A")]⟩ =
      .ok ⟨some "s330", ⟨0, 1⟩, none, [("lat", .str "abc"), ("note", .str "N/A")]⟩
  ∧ normalize_transform [] []
      ⟨some "s330", ⟨0, 1⟩, none, [("x", .str "--5")]⟩ = .error () := by
  exact ⟨by decide, by decide⟩

/-- C8 (code bug evidence).  Numeric coercion behaves as specified on
integer-shaped, float-shaped, non-numeric and non-string values, and a
skip-listed field keeps its string; but a string of repeated leading
minuses and digits, which the claim says is "kept as the original string",
instead raises out of `_try_convert_number` (last conjunct). -/
theorem try_convert_number_shapes :
    try_convert_number (.str "123") = .ok (.int 123)
  ∧ try_convert_number (.str "-45") = .ok (.int (-45))
  ∧ try_convert_number (.str "-4.5") = .ok (.float ⟨-9, 2⟩)
  ∧ try_convert_number (.str "N/A") = .ok (.str "N/A")
  ∧ try_convert_number (.int 7) = .ok (.int 7)
  ∧ normalizeNumbers ["keep"] [("keep", .str "123")] = .ok [("keep", .str "123")]
  ∧ try_convert_number (.str "--7") = .error () := by
  refine ⟨by decide, by decide, by decide, by decide, by decide, by decide, by decide⟩

/-- C7: for a configured coordinate pair, a present and numerically
convertible value field yields the derived field
`floor(v / 100) + (v mod 100) / 60`, negated exactly when the direction
field's value is case-insensitively `S` or `W`; a missing value key or a
failed conversion leaves the map unchanged (and, the step being a total
function, no error propagates); and every key other than the configured
result name — in particular the raw value and direction fields — keeps its
value. -/
theorem coordinate_pair_derivation (fields : List (String × PyVal))
    (final_name raw_val_key raw_dir_key : String) :
    (∀ (v : PyVal) (q : PyRat), dictGet fields raw_val_key = some v →
        pyFloatOf? v = some q →
        applyLatLonPair fields (final_name, raw_val_key, raw_dir_key) =
          dictSet fields final_name (.float
            (if str_upper_in_SW ((dictGet fields raw_dir_key).getD .pnone) then
              -nmeaDecimalDegrees q
            else nmeaDecimalDegrees q)))
    ∧ (dictGet fields raw_val_key = none →
        applyLatLonPair fields (final_name, raw_val_key, raw_dir_key) = fields)
    ∧ (∀ v : PyVal, dictGet fields raw_val_key = some v → pyFloatOf? v = none →
        applyLatLonPair fields (final_name, raw_val_key, raw_dir_key) = fields)
    ∧ (∀ k : String, k ≠ final_name →
        dictGet (applyLatLonPair fields (final_name, raw_val_key, raw_dir_key)) k =
          dictGet fields k) :=
  ⟨fun v q hv hq => applyLatLonPair_success fields final_name raw_val_key raw_dir_key v q hv hq,
   fun hv => applyLatLonPair_skip_missing fields final_name raw_val_key raw_dir_key hv,
   fun v hv hq => applyLatLonPair_skip_unconvertible fields final_name raw_val_key raw_dir_key v hv hq,
   fun k hk => applyLatLonPair_preserves fields final_name raw_val_key raw_dir_key k hk⟩

/-- Witness for C7 at the spec's own example: `2156.8986` with direction
`S` derives `latitude = -21.94831` exactly, keeping the raw fields; a
missing value field leaves the map untouched. -/
theorem coordinate_pair_derivation_witness :
    applyLatLonPair [("lat", .str "2156.8986"), ("lat_dir", .str "S")]
        ("latitude", "lat", "lat_dir") =
      [("lat", .str "2156.8986"), ("lat_dir", .str "S"),
       ("latitude", .float ⟨-2194831, 100000⟩)]
  ∧ applyLatLonPair [("x", .str "1")] ("latitude", "lat", "lat_dir") =
      [("x", .str "1")] := by
  constructor
  · have h := (coordinate_pair_derivation
        [("lat", .str "2156.8986"), ("lat_dir", .str "S")]
        "latitude" "lat" "lat_dir").1 (.str "2156.8986") ⟨10784493, 5000⟩
        (by decide) (by decide)
    exact h.trans (by decide)
  · exact (coordinate_pair_derivation [("x", .str "1")]
        "latitude" "lat" "lat_dir").2.1 (by decide)

/-- C9: when the configured direction field is absent (Python `None`) or
holds any value that is not case-insensitively `S` or `W` (for example
`"South"`), while the value field converts, the derived field is still
added, with the positive (non-negated) value; nothing is suppressed and no
error is raised. -/
theorem coordinate_derivation_unrecognized_direction
    (fields : List (String × PyVal))
    (final_name raw_val_key raw_dir_key : String) (v : PyVal) (q : PyRat)
    (hv : dictGet fields raw_val_key = some v)
    (hq : pyFloatOf? v = some q)
    (hdir : str_upper_in_SW ((dictGet fields raw_dir_key).getD .pnone) = false) :
    applyLatLonPair fields (final_name, raw_val_key, raw_dir_key) =
      dictSet fields final_name (.float (nmeaDecimalDegrees q)) := by
  rw [applyLatLonPair_success fields final_name raw_val_key raw_dir_key v q hv hq,
    hdir]
  simp

/-- Witness for C9: the direction key absent entirely, and the direction
value `"South"`, both derive the positive longitude. -/
theorem coordinate_derivation_unrecognized_direction_witness :
    applyLatLonPair [("lon", .str "07612.34")] ("longitude", "lon", "lon_dir") =
      [("lon", .str "07612.34"), ("longitude", .float ⟨228617, 3000⟩)]
  ∧ applyLatLonPair [("lon", .str "07612.34"), ("lon_dir", .str "South")]
        ("longitude", "lon", "lon_dir") =
      [("lon", .str "07612.34"), ("lon_dir", .str "South"),
       ("longitude", .float ⟨228617, 3000⟩)] := by
  constructor
  · have h := coordinate_derivation_unrecognized_direction
      [("lon", .str "07612.34")] "longitude" "lon" "lon_dir"
      (.str "07612.34") ⟨380617, 50⟩ (by decide) (by decide) (by decide)
    exact h.trans (by decide)
  · have h := coordinate_derivation_unrecognized_direction
      [("lon", .str "07612.34"), ("lon_dir", .str "South")]
      "longitude" "lon" "lon_dir"
      (.str "07612.34") ⟨380617, 50⟩ (by decide) (by decide) (by decide)
    exact h.trans (by decide)

/-! ## Lemmas for the KMB packed layout -/

theorem kmbPack_slices (v : KmbValues) (h : v.inRange) :
    sliceBE (kmbPack v) 8 4 = v.utc_sec ∧
    sliceBE (kmbPack v) 12 4 = v.utc_nano ∧
    sliceBE (kmbPack v) 16 4 = v.status ∧
    sliceBE (kmbPack v) 20 8 = v.lat ∧
    sliceBE (kmbPack v) 28 8 = v.lon ∧
    sliceBE (kmbPack v) 36 4 = v.ellipsoid_height ∧
    sliceBE (kmbPack v) 40 4 = v.roll ∧
    sliceBE (kmbPack v) 44 4 = v.pitch ∧
    sliceBE (kmbPack v) 48 4 = v.heading ∧
    sliceBE (kmbPack v) 52 4 = v.heave ∧
    sliceBE (kmbPack v) 56 4 = v.roll_rate := by
  obtain ⟨h1, h2, h3, h4, h5, h6, h7, h8, h9, h10, h11, h12, h13⟩ := h
  have hs_utc_sec : sliceBE (kmbPack v) 8 4 = beNat (beBytes 4 v.utc_sec) :=
    sliceBE_of_eq (kmbPack v)
      (KMB_MAGIC ++ beBytes 2 v.dgm_len ++ beBytes 2 v.version)
      (beBytes 4 v.utc_sec)
      (beBytes 4 v.utc_nano ++ beBytes 4 v.status ++ beBytes 8 v.lat ++ beBytes 8 v.lon ++ beBytes 4 v.ellipsoid_height ++ beBytes 4 v.roll ++ beBytes 4 v.pitch ++ beBytes 4 v.heading ++ beBytes 4 v.heave ++ beBytes 4 v.roll_rate) 8 4
      (by simp [kmbPack, List.append_assoc]) (by simp [KMB_MAGIC, beBytes_length])
      (beBytes_length 4 _).symm
  have hs_utc_nano : sliceBE (kmbPack v) 12 4 = beNat (beBytes 4 v.utc_nano) :=
    sliceBE_of_eq (kmbPack v)
      (KMB_MAGIC ++ beBytes 2 v.dgm_len ++ beBytes 2 v.version ++ beBytes 4 v.utc_sec)
      (beBytes 4 v.utc_nano)
      (beBytes 4 v.status ++ beBytes 8 v.lat ++ beBytes 8 v.lon ++ beBytes 4 v.ellipsoid_height ++ beBytes 4 v.roll ++ beBytes 4 v.pitch ++ beBytes 4 v.heading ++ beBytes 4 v.heave ++ beBytes 4 v.roll_rate) 12 4
      (by simp [kmbPack, List.append_assoc]) (by simp [KMB_MAGIC, beBytes_length])
      (beBytes_length 4 _).symm
  have hs_status : sliceBE (kmbPack v) 16 4 = beNat (beBytes 4 v.status) :=
    sliceBE_of_eq (kmbPack v)
      (KMB_MAGIC ++ beBytes 2 v.dgm_len ++ beBytes 2 v.version ++ beBytes 4 v.utc_sec ++ beBytes 4 v.utc_nano)
      (beBytes 4 v.status)
      (beBytes 8 v.lat ++ beBytes 8 v.lon ++ beBytes 4 v.ellipsoid_height ++ beBytes 4 v.roll ++ beBytes 4 v.pitch ++ beBytes 4 v.heading ++ beBytes 4 v.heave ++ beBytes 4 v.roll_rate) 16 4
      (by simp [kmbPack, List.append_assoc]) (by simp [KMB_MAGIC, beBytes_length])
      (beBytes_length 4 _).symm
  have hs_lat : sliceBE (kmbPack v) 20 8 = beNat (beBytes 8 v.lat) :=
    sliceBE_of_eq (kmbPack v)
      (KMB_MAGIC ++ beBytes 2 v.dgm_len ++ beBytes 2 v.version ++ beBytes 4 v.utc_sec ++ beBytes 4 v.utc_nano ++ beBytes 4 v.status)
      (beBytes 8 v.lat)
      (beBytes 8 v.lon ++ beBytes 4 v.ellipsoid_height ++ beBytes 4 v.roll ++ beBytes 4 v.pitch ++ beBytes 4 v.heading ++ beBytes 4 v.heave ++ beBytes 4 v.roll_rate) 20 8
      (by simp [kmbPack, List.append_assoc]) (by simp [KMB_MAGIC, beBytes_length])
      (beBytes_length 8 _).symm
  have hs_lon : sliceBE (kmbPack v) 28 8 = beNat (beBytes 8 v.lon) :=
    sliceBE_of_eq (kmbPack v)
      (KMB_MAGIC ++ beBytes 2 v.dgm_len ++ beBytes 2 v.version ++ beBytes 4 v.utc_sec ++ beBytes 4 v.utc_nano ++ beBytes 4 v.status ++ beBytes 8 v.lat)
      (beBytes 8 v.lon)
      (beBytes 4 v.ellipsoid_height ++ beBytes 4 v.roll ++ beBytes 4 v.pitch ++ beBytes 4 v.heading ++ beBytes 4 v.heave ++ beBytes 4 v.roll_rate) 28 8
      (by simp [kmbPack, List.append_assoc]) (by simp [KMB_MAGIC, beBytes_length])
      (beBytes_length 8 _).symm
  have hs_ellipsoid_height : sliceBE (kmbPack v) 36 4 = beNat (beBytes 4 v.ellipsoid_height) :=
    sliceBE_of_eq (kmbPack v)
      (KMB_MAGIC ++ beBytes 2 v.dgm_len ++ beBytes 2 v.version ++ beBytes 4 v.utc_sec ++ beBytes 4 v.utc_nano ++ beBytes 4 v.status ++ beBytes 8 v.lat ++ beBytes 8 v.lon)
      (beBytes 4 v.ellipsoid_height)
      (beBytes 4 v.roll ++ beBytes 4 v.pitch ++ beBytes 4 v.heading ++ beBytes 4 v.heave ++ beBytes 4 v.roll_rate) 36 4
      (by simp [kmbPack, List.append_assoc]) (by simp [KMB_MAGIC, beBytes_length])
      (beBytes_length 4 _).symm
  have hs_roll : sliceBE (kmbPack v) 40 4 = beNat (beBytes 4 v.roll) :=
    sliceBE_of_eq (kmbPack v)
      (KMB_MAGIC ++ beBytes 2 v.dgm_len ++ beBytes 2 v.version ++ beBytes 4 v.utc_sec ++ beBytes 4 v.utc_nano ++ beBytes 4 v.status ++ beBytes 8 v.lat ++ beBytes 8 v.lon ++ beBytes 4 v.ellipsoid_height)
      (beBytes 4 v.roll)
      (beBytes 4 v.pitch ++ beBytes 4 v.heading ++ beBytes 4 v.heave ++ beBytes 4 v.roll_rate) 40 4
      (by simp [kmbPack, List.append_assoc]) (by simp [KMB_MAGIC, beBytes_length])
      (beBytes_length 4 _).symm
  have hs_pitch : sliceBE (kmbPack v) 44 4 = beNat (beBytes 4 v.pitch) :=
    sliceBE_of_eq (kmbPack v)
      (KMB_MAGIC ++ beBytes 2 v.dgm_len ++ beBytes 2 v.version ++ beBytes 4 v.utc_sec ++ beBytes 4 v.utc_nano ++ beBytes 4 v.status ++ beBytes 8 v.lat ++ beBytes 8 v.lon ++ beBytes 4 v.ellipsoid_height ++ beBytes 4 v.roll)
      (beBytes 4 v.pitch)
      (beBytes 4 v.heading ++ beBytes 4 v.heave ++ beBytes 4 v.roll_rate) 44 4
      (by simp [kmbPack, List.append_assoc]) (by simp [KMB_MAGIC, beBytes_length])
      (beBytes_length 4 _).symm
  have hs_heading : sliceBE (kmbPack v) 48 4 = beNat (beBytes 4 v.heading) :=
    sliceBE_of_eq (kmbPack v)
      (KMB_MAGIC ++ beBytes 2 v.dgm_len ++ beBytes 2 v.version ++ beBytes 4 v.utc_sec ++ beBytes 4 v.utc_nano ++ beBytes 4 v.status ++ beBytes 8 v.lat ++ beBytes 8 v.lon ++ beBytes 4 v.ellipsoid_height ++ beBytes 4 v.roll ++ beBytes 4 v.pitch)
      (beBytes 4 v.heading)
      (beBytes 4 v.heave ++ beBytes 4 v.roll_rate) 48 4
      (by simp [kmbPack, List.append_assoc]) (by simp [KMB_MAGIC, beBytes_length])
      (beBytes_length 4 _).symm
  have hs_heave : sliceBE (kmbPack v) 52 4 = beNat (beBytes 4 v.heave) :=
    sliceBE_of_eq (kmbPack v)
      (KMB_MAGIC ++ beBytes 2 v.dgm_len ++ beBytes 2 v.version ++ beBytes 4 v.utc_sec ++ beBytes 4 v.utc_nano ++ beBytes 4 v.status ++ beBytes 8 v.lat ++ beBytes 8 v.lon ++ beBytes 4 v.ellipsoid_height ++ beBytes 4 v.roll ++ beBytes 4 v.pitch ++ beBytes 4 v.heading)
      (beBytes 4 v.heave)
      (beBytes 4 v.roll_rate) 52 4
      (by simp [kmbPack, List.append_assoc]) (by simp [KMB_MAGIC, beBytes_length])
      (beBytes_length 4 _).symm
  have hs_roll_rate : sliceBE (kmbPack v) 56 4 = beNat (beBytes 4 v.roll_rate) :=
    sliceBE_of_eq (kmbPack v)
      (KMB_MAGIC ++ beBytes 2 v.dgm_len ++ beBytes 2 v.version ++ beBytes 4 v.utc_sec ++ beBytes 4 v.utc_nano ++ beBytes 4 v.status ++ beBytes 8 v.lat ++ beBytes 8 v.lon ++ beBytes 4 v.ellipsoid_height ++ beBytes 4 v.roll ++ beBytes 4 v.pitch ++ beBytes 4 v.heading ++ beBytes 4 v.heave)
      (beBytes 4 v.roll_rate)
      (([] : List Nat)) 56 4
      (by simp [kmbPack, List.append_assoc]) (by simp [KMB_MAGIC, beBytes_length])
      (beBytes_length 4 _).symm
  exact ⟨hs_utc_sec.trans (beNat_beBytes 4 _ h3),
    hs_utc_nano.trans (beNat_beBytes 4 _ h4),
    hs_status.trans (beNat_beBytes 4 _ h5),
    hs_lat.trans (beNat_beBytes 8 _ h6),
    hs_lon.trans (beNat_beBytes 8 _ h7),
    hs_ellipsoid_height.trans (beNat_beBytes 4 _ h8),
    hs_roll.trans (beNat_beBytes 4 _ h9),
    hs_pitch.trans (beNat_beBytes 4 _ h10),
    hs_heading.trans (beNat_beBytes 4 _ h11),
    hs_heave.trans (beNat_beBytes 4 _ h12),
    hs_roll_rate.trans (beNat_beBytes 4 _ h13)⟩

/-! ## Claim theorems: ParseKongsbergKMBTransform -/

/-- C5: for any buffer of at least 60 bytes whose first four bytes are the
`#KMB` magic tag, the decoder yields a record with `message_type = "kmb"`,
timestamp `seconds + nanoseconds / 1e9`, and exactly the nine payload
fields read big-endian from the fixed offsets of the first 60 bytes
(doubles/floats as their bit patterns); decoding a packed synthetic
datagram reconstructs all nine payload values bit-for-bit
(`decode (encode x) = x`); and the result depends only on the first 60
bytes. -/
theorem kmb_valid_buffer_decode (data_id : String) :
    (∀ b : List Nat, 60 ≤ b.length → b.take 4 = KMB_MAGIC →
      kmbTransformBytes data_id b = some
        ⟨some data_id,
         (sliceBE (b.take 60) 8 4 : PyRat) +
           (sliceBE (b.take 60) 12 4 : PyRat) / 1000000000,
         some "kmb",
         [("status", .int (sliceBE (b.take 60) 16 4)),
          ("latitude", .f64bits (sliceBE (b.take 60) 20 8)),
          ("longitude", .f64bits (sliceBE (b.take 60) 28 8)),
          ("ellipsoid_height_m", .f32bits (sliceBE (b.take 60) 36 4)),
          ("roll_deg", .f32bits (sliceBE (b.take 60) 40 4)),
          ("pitch_deg", .f32bits (sliceBE (b.take 60) 44 4)),
          ("heading_deg", .f32bits (sliceBE (b.take 60) 48 4)),
          ("heave_m", .f32bits (sliceBE (b.take 60) 52 4)),
          ("roll_rate_deg_s", .f32bits (sliceBE (b.take 60) 56 4))]⟩)
  ∧ (∀ v : KmbValues, v.inRange →
      kmbTransformBytes data_id (kmbPack v) = some
        ⟨some data_id,
         (v.utc_sec : PyRat) + (v.utc_nano : PyRat) / 1000000000,
         some "kmb",
         [("status", .int (v.status : Int)),
          ("latitude", .f64bits v.lat),
          ("longitude", .f64bits v.lon),
          ("ellipsoid_height_m", .f32bits v.ellipsoid_height),
          ("roll_deg", .f32bits v.roll),
          ("pitch_deg", .f32bits v.pitch),
          ("heading_deg", .f32bits v.heading),
          ("heave_m", .f32bits v.heave),
          ("roll_rate_deg_s", .f32bits v.roll_rate)]⟩)
  ∧ (∀ b : List Nat, 60 ≤ b.length →
      kmbTransformBytes data_id b = kmbTransformBytes data_id (b.take 60)) := by
  have hA : ∀ b : List Nat, 60 ≤ b.length → b.take 4 = KMB_MAGIC →
      kmbTransformBytes data_id b = some
        ⟨some data_id,
         (sliceBE (b.take 60) 8 4 : PyRat) +
           (sliceBE (b.take 60) 12 4 : PyRat) / 1000000000,
         some "kmb",
         [("status", .int (sliceBE (b.take 60) 16 4)),
          ("latitude", .f64bits (sliceBE (b.take 60) 20 8)),
          ("longitude", .f64bits (sliceBE (b.take 60) 28 8)),
          ("ellipsoid_height_m", .f32bits (sliceBE (b.take 60) 36 4)),
          ("roll_deg", .f32bits (sliceBE (b.take 60) 40 4)),
          ("pitch_deg", .f32bits (sliceBE (b.take 60) 44 4)),
          ("heading_deg", .f32bits (sliceBE (b.take 60) 48 4)),
          ("heave_m", .f32bits (sliceBE (b.take 60) 52 4)),
          ("roll_rate_deg_s", .f32bits (sliceBE (b.take 60) 56 4))]⟩ := by
    intro b hlen hmagic
    have htake4 : (b.take 60).take 4 = KMB_MAGIC := by
      rw [List.take_take]
      norm_num [hmagic]
    simp only [kmbTransformBytes, kmb_struct_size]
    rw [if_neg (by omega), if_neg (by simp [htake4])]
  refine ⟨hA, fun v hv => ?_, fun b hlen => ?_⟩
  · have ht : (kmbPack v).take 60 = kmbPack v :=
      List.take_of_length_le (le_of_eq (kmbPack_length v))
    have hdec := hA (kmbPack v) (le_of_eq (kmbPack_length v).symm)
      (kmbPack_take_magic v)
    rw [ht] at hdec
    obtain ⟨h3, h4, h5, h6, h7, h8, h9, h10, h11, h12, h13⟩ := kmbPack_slices v hv
    rw [hdec, h3, h4, h5, h6, h7, h8, h9, h10, h11, h12, h13]
  · have hlen2 : (List.take 60 b).length = 60 := by
      rw [List.length_take]
      omega
    have ht : List.take 60 (List.take 60 b) = List.take 60 b := by
      rw [List.take_take]
      norm_num
    simp only [kmbTransformBytes, kmb_struct_size, hlen2, ht]
    rw [if_neg (by omega : ¬ b.length < 60), if_neg (by omega : ¬ (60 : Nat) < 60)]

/-- Witness for C5 at a concrete synthetic datagram. -/
theorem kmb_valid_buffer_decode_witness :
    kmbTransformBytes "seapath_kmb"
        (kmbPack ⟨60, 1, 5, 500000000, 7, 123456789, 987654321, 11, 22, 33,
          44, 55, 66⟩) =
      some ⟨some "seapath_kmb", ⟨11, 2⟩, some "kmb",
        [("status", .int 7),
         ("latitude", .f64bits 123456789),
         ("longitude", .f64bits 987654321),
         ("ellipsoid_height_m", .f32bits 11),
         ("roll_deg", .f32bits 22),
         ("pitch_deg", .f32bits 33),
         ("heading_deg", .f32bits 44),
         ("heave_m", .f32bits 55),
         ("roll_rate_deg_s", .f32bits 66)]⟩ := by
  have h := (kmb_valid_buffer_decode "seapath_kmb").2.1
    ⟨60, 1, 5, 500000000, 7, 123456789, 987654321, 11, 22, 33, 44, 55, 66⟩
    (by norm_num [KmbValues.inRange])
  exact h.trans (by decide)

/-- C6: a buffer shorter than 60 bytes is rejected with no result; a buffer
of 60 or more bytes whose first four bytes are not the `#KMB` tag is
rejected with no result; and a string input that is not valid hexadecimal
is rejected with no result.  Nothing is raised (the decoder is a total
function into `Option`). -/
theorem kmb_reject_invalid (data_id : String) :
    (∀ b : List Nat, b.length < 60 → kmbTransformBytes data_id b = none)
  ∧ (∀ b : List Nat, 60 ≤ b.length → b.take 4 ≠ KMB_MAGIC →
      kmbTransformBytes data_id b = none)
  ∧ (∀ s : String, bytesFromHex? s = none →
      kmbTransform data_id (.str s) = none) := by
  refine ⟨fun b hb => ?_, fun b hlen hmagic => ?_, fun s hs => ?_⟩
  · simp only [kmbTransformBytes, kmb_struct_size]
    rw [if_pos hb]
  · have htake4 : (b.take 60).take 4 = b.take 4 := by
      rw [List.take_take]
      norm_num
    simp only [kmbTransformBytes, kmb_struct_size]
    rw [if_neg (by omega), if_pos (by simp [htake4, hmagic])]
  · simp only [kmbTransform]
    rw [hs]

/-- Witness for C6: a three-byte buffer, a 60-byte zero buffer (wrong
magic), and a non-hex string are all rejected. -/
theorem kmb_reject_invalid_witness :
    kmbTransformBytes "seapath_kmb" [35, 75, 77] = none
  ∧ kmbTransformBytes "seapath_kmb" (List.replicate 60 0) = none
  ∧ kmbTransform "seapath_kmb" (.str "zz") = none := by
  refine ⟨(kmb_reject_invalid "seapath_kmb").1 _ (by decide),
    (kmb_reject_invalid "seapath_kmb").2.1 _ (by decide) (by decide),
    (kmb_reject_invalid "seapath_kmb").2.2 _ (by decide)⟩

/-! ## Claim theorems: RegexParser -/

/-- C3: the matching stage tries the configured field patterns in declared
order and returns the groupdict of the first pattern whose `match` succeeds
on the field string; the result does not depend on the patterns listed
after the first match (they are never consulted), and for a keyed mapping
the resulting `message_type` is exactly the key of the matching pattern
(`None` for a plain list). -/
theorem first_match_wins :
    (∀ (fs : String) (pre post : List (Option String × FieldPattern))
        (k : Option String) (p : FieldPattern) (gd : Groupdict)
        (mt0 : Option String),
      (∀ q ∈ pre, q.2 fs = none) → p fs = some gd →
      matchLoop (pre ++ (k, p) :: post) fs mt0 = (k, gd))
  ∧ (∀ (fs : String) (pre post : List (String × FieldPattern)) (key : String)
        (p : FieldPattern) (gd : Groupdict),
      (∀ q ∈ pre, q.2 fs = none) → p fs = some gd →
      matchLoop (iterate_patterns (.dict (pre ++ (key, p) :: post))) fs none =
        (some key, gd))
  ∧ (∀ (fs : String) (pre post : List FieldPattern) (p : FieldPattern)
        (gd : Groupdict),
      (∀ q ∈ pre, q fs = none) → p fs = some gd →
      matchLoop (iterate_patterns (.list (pre ++ p :: post))) fs none =
        (none, gd)) := by
  have main : ∀ (fs : String) (pre : List (Option String × FieldPattern))
      (post : List (Option String × FieldPattern)) (k : Option String)
      (p : FieldPattern) (gd : Groupdict) (mt0 : Option String),
      (∀ q ∈ pre, q.2 fs = none) → p fs = some gd →
      matchLoop (pre ++ (k, p) :: post) fs mt0 = (k, gd) := by
    intro fs pre
    induction pre with
    | nil =>
      intro post k p gd mt0 _ hp
      simp [matchLoop, hp]
    | cons q rest ih =>
      intro post k p gd mt0 hpre hp
      obtain ⟨mt, pat⟩ := q
      have hq : pat fs = none := hpre (mt, pat) (by simp)
      simp only [List.cons_append, matchLoop]
      rw [hq]
      exact ih post k p gd mt (fun r hr => hpre r (by simp [hr])) hp
  refine ⟨main, fun fs pre post key p gd hpre hp => ?_,
    fun fs pre post p gd hpre hp => ?_⟩
  · have hmap : iterate_patterns (.dict (pre ++ (key, p) :: post)) =
        (pre.map fun kv => ((some kv.1 : Option String), kv.2)) ++
          ((some key : Option String), p) ::
            (post.map fun kv => ((some kv.1 : Option String), kv.2)) := by
      simp [iterate_patterns]
    rw [hmap]
    refine main fs _ _ _ _ _ _ (fun r hr => ?_) hp
    obtain ⟨kv, hkv, rfl⟩ := List.mem_map.1 hr
    exact hpre kv hkv
  · have hmap : iterate_patterns (.list (pre ++ p :: post)) =
        (pre.map fun q => ((none : Option String), q)) ++
          ((none : Option String), p) ::
            (post.map fun q => ((none : Option String), q)) := by
      simp [iterate_patterns]
    rw [hmap]
    refine main fs _ _ _ _ _ _ (fun r hr => ?_) hp
    obtain ⟨q, hq, rfl⟩ := List.mem_map.1 hr
    exact hpre q hq

/-- Witness for C3: with a keyed pair where the second pattern matches
everything, the first pattern wins when it matches, and otherwise the
second's key labels the result. -/
theorem first_match_wins_witness :
    matchLoop (iterate_patterns (.dict
      [("A", fun s => if s = "ab" then some [("x", some "1")] else none),
       ("B", fun _ => some [("y", some "2")])])) "ab" none =
      (some "A", [("x", some "1")])
  ∧ matchLoop (iterate_patterns (.dict
      [("A", fun s => if s = "zz" then some [("x", some "1")] else none),
       ("B", fun _ => some [("y", some "2")])])) "ab" none =
      (some "B", [("y", some "2")]) := by
  constructor
  · exact first_match_wins.2.1 "ab" []
      [("B", fun _ => some [("y", some "2")])] "A"
      (fun s => if s = "ab" then some [("x", some "1")] else none)
      [("x", some "1")] (by intro q hq; cases hq) (by rfl)
  · exact first_match_wins.2.1 "ab"
      [("A", fun s => if s = "zz" then some [("x", some "1")] else none)]
      [] "B" (fun _ => some [("y", some "2")]) [("y", some "2")]
      (by
        intro q hq
        rw [List.mem_singleton] at hq
        subst hq
        rfl)
      (by rfl)

/-- C10: `parse_record` of the empty string (the falsy string) returns
`None` — no record at all — for every parser configuration and output
mode, even though the default framing pattern does match the empty string
(with no data_id, no timestamp, and an empty field string), so the
"empty fields, absent message_type" outcome is never produced for a fully
empty line. -/
theorem parse_record_empty_none :
    (∀ (self : RegexParser) (now : PyRat), parse_record self "" now = none)
  ∧ default_record_format_match "" =
      some [("data_id", none), ("timestamp", none),
        ("field_string", some "")] :=
  ⟨fun _ _ => rfl, by decide⟩

/-- C4 (code bug evidence): when NO pattern of a keyed pattern set matches
a non-empty field string, the produced DASRecord's fields are empty as
claimed, BUT its `message_type` is the LAST key of the mapping (the Python
`for message_type, pattern in ...` loop variable leaks its final value)
instead of being absent (first conjunct).  With a plain list the leaked
value is `None`, hiding the bug (second conjunct); an empty field string
skips the loop entirely and `message_type` is absent as claimed (third
conjunct). -/
theorem no_match_message_type_leak :
    parse_record ⟨default_record_format_match,
        some (.dict
          [("A", fun s => if s = "AAA" then some [("a", some "1")] else none),
           ("B", fun s => if s = "BBB" then some [("b", some "2")] else none)]),
        none, true, false⟩ "zzz" ⟨99, 1⟩ =
      some (.das ⟨some "unknown", ⟨99, 1⟩, some "B", []⟩)
  ∧ parse_record ⟨default_record_format_match,
        some (.list
          [fun s => if s = "AAA" then some [("a", some "1")] else none,
           fun s => if s = "BBB" then some [("b", some "2")] else none]),
        none, true, false⟩ "zzz" ⟨99, 1⟩ =
      some (.das ⟨some "unknown", ⟨99, 1⟩, none, []⟩)
  ∧ parse_record ⟨default_record_format_match,
        some (.dict
          [("A", fun s => if s = "AAA" then some [("a", some "1")] else none),
           ("B", fun s => if s = "BBB" then some [("b", some "2")] else none)]),
        none, true, false⟩ "ID 123 " ⟨99, 1⟩ =
      some (.das ⟨some "ID", ⟨99, 1⟩, none, []⟩) := by
  refine ⟨by decide, by decide, by decide⟩

/-- C1 (code bug evidence): in DASRecord mode the record's timestamp is
always the parsed epoch value or the wall clock (third conjunct), and a
parseable wire timestamp is numeric in every mode (fourth conjunct); but in
dict/JSON mode a line with NO wire timestamp keeps `timestamp: None` in
the output (first conjunct) and a line whose wire timestamp fails to parse
keeps the raw unparsed text (second conjunct), because
`if 'timestamp' not in parsed_record` tests key presence, and the key is
present holding `None`/the original text. -/
theorem dict_output_timestamp_left_null :
    parse_record ⟨default_record_format_match, none, none, false, false⟩
        "foo,bar" ⟨99, 1⟩ =
      some (.dict [("data_id", .str "unknown"), ("timestamp", .pnone)])
  ∧ parse_record ⟨default_record_format_match, none, none, false, false⟩
        "ID 123 x,y" ⟨99, 1⟩ =
      some (.dict [("data_id", .str "ID"), ("timestamp", .str "123")])
  ∧ parse_record ⟨default_record_format_match, none, none, true, false⟩
        "foo,bar" ⟨99, 1⟩ =
      some (.das ⟨some "unknown", ⟨99, 1⟩, none, []⟩)
  ∧ parse_record ⟨default_record_format_match, none, none, false, false⟩
        "ID 2024-01-01T00:00:00.000000Z x,y" ⟨99, 1⟩ =
      some (.dict [("data_id", .str "ID"),
        ("timestamp", .float ⟨1704067200, 1⟩)]) := by
  refine ⟨by decide, by decide, by decide, by decide⟩
